import Mathlib

set_option maxHeartbeats 1000000

/-
  Verification development for the video_analyzer repository.

  Shallow embedding of:
  - capture_video.py  (class VideoRecorder: add_frame, trigger_recording, _stop_recording)
  - video_analyzer.py (check_policy_violation, write_json_log, and the per-frame
    decision logic of tiler_sink_pad_buffer_probe)

  Modelling conventions:
  - Frames are abstract values, modelled as Nat.
  - Wall-clock epoch times (Python time.time) are modelled as Int seconds.
  - cv2.VideoWriter is modelled as a record of an opened flag plus the list of
    frames written so far; releasing an opened writer moves its frame list into
    closed_outputs (the finished file contents).
  - print-based error reporting is modelled as an error_log list of messages.
  - Exceptions raised out of trigger_recording (e.g. os.makedirs failing) are
    modelled by a Bool flag paired with the mutated state, since Python object
    mutations performed before the raise persist.
-/

namespace VideoAnalyzer

/-- Configuration of a VideoRecorder (constructor arguments of
`VideoRecorder.__init__` in capture_video.py). `snapshot_cooldown` is the 3.0
second constant set in `__init__`. -/
structure RecConfig where
  buffer_seconds : Nat
  post_event_seconds : Nat
  fps : Nat
  snapshot_cooldown : Int
deriving Repr, DecidableEq

/-- `self.buffer_len = buffer_seconds * fps` (capture_video.py line 28). -/
def RecConfig.buffer_len (c : RecConfig) : Nat := c.buffer_seconds * c.fps

/-- The post-event frame budget `post_event_seconds * fps` as an Int, the value
assigned to `remaining_frames_to_record`. -/
def RecConfig.post_frames (c : RecConfig) : Int := (c.post_event_seconds * c.fps : Nat)

/-- Model of a cv2.VideoWriter: whether `isOpened()` holds, and the frames
written so far. `write` on a writer that is not opened is a no-op. -/
structure VWriter where
  opened : Bool
  frames : List Nat
deriving Repr, DecidableEq

/-- State of one VideoRecorder (capture_video.py `__init__`), plus ghost
fields recording observable effects: `closed_outputs` (contents of released
video files), `snapshots` (labelled images persisted by `_save_snapshot`),
`error_log` (printed error messages). -/
structure VideoRecorder where
  cfg : RecConfig
  frame_buffer : List Nat
  is_recording : Bool
  remaining_frames_to_record : Int
  active_writer : Option VWriter
  closed_outputs : List (List Nat)
  snapshot_frames_left : Nat
  last_alert_types : List String
  last_snapshot_time : Int
  snapshots : List (String × Nat)
  error_log : List String
deriving Repr, DecidableEq

/-- Initial recorder state built by `VideoRecorder.__init__`. -/
def VideoRecorder.mkInit (cfg : RecConfig) : VideoRecorder :=
  { cfg := cfg
    frame_buffer := []
    is_recording := false
    remaining_frames_to_record := 0
    active_writer := none
    closed_outputs := []
    snapshot_frames_left := 0
    last_alert_types := []
    last_snapshot_time := 0
    snapshots := []
    error_log := [] }

/-- `collections.deque(maxlen=n).append`: append on the right, evicting from
the left when the maximum length is exceeded. -/
def pushBounded (maxlen : Nat) (l : List Nat) (x : Nat) : List Nat :=
  let l2 := l ++ [x]
  l2.drop (l2.length - maxlen)

/-- `VideoRecorder._stop_recording` (capture_video.py lines 140-145):
clear `is_recording`; if there is an active writer, release it (an opened
writer finalizes its file, recorded in `closed_outputs`) and drop the handle. -/
def stopRecording (r : VideoRecorder) : VideoRecorder :=
  { r with
    is_recording := false
    active_writer := none
    closed_outputs :=
      match r.active_writer with
      | some w => if w.opened then r.closed_outputs ++ [w.frames] else r.closed_outputs
      | none => r.closed_outputs }

/-- The buffer-append step of `add_frame` (line 51): always push into the
bounded ring buffer. -/
def bufferStep (r : VideoRecorder) (f : Nat) : VideoRecorder :=
  { r with frame_buffer := pushBounded r.cfg.buffer_len r.frame_buffer f }

/-- The recording branch of `add_frame` (lines 54-60): write the frame to the
active writer (cv2 write is a no-op when the writer is not opened), decrement
the remaining counter, and stop when it reaches zero or below. -/
def recordStep (r : VideoRecorder) (f : Nat) : VideoRecorder :=
  let r2 :=
    { r with
      active_writer :=
        match r.active_writer with
        | some w => some { w with frames := if w.opened then w.frames ++ [f] else w.frames }
        | none => none
      remaining_frames_to_record := r.remaining_frames_to_record - 1 }
  if r2.remaining_frames_to_record ≤ 0 then stopRecording r2 else r2

/-- The snapshot branch of `add_frame` (lines 63-65): while a snapshot burst is
pending, persist the frame labelled "seq" and decrement the burst counter. -/
def snapshotStep (r : VideoRecorder) (f : Nat) : VideoRecorder :=
  if 0 < r.snapshot_frames_left then
    { r with
      snapshots := r.snapshots ++ [("seq", f)]
      snapshot_frames_left := r.snapshot_frames_left - 1 }
  else r

/-- `VideoRecorder.add_frame` (capture_video.py lines 44-65). -/
def add_frame (r : VideoRecorder) (f : Nat) : VideoRecorder :=
  let r1 := bufferStep r f
  let r2 := if r1.is_recording then recordStep r1 f else r1
  snapshotStep r2 f

/-- Feeding a sequence of frames through `add_frame`, in order. -/
def addFrames (r : VideoRecorder) (fs : List Nat) : VideoRecorder :=
  fs.foldl add_frame r

/-- Outcome of the output-target allocation attempted by `trigger_recording`:
`ok` — directory created and the writer opened; `notOpened` — no exception but
`isOpened()` is false (line 125); `raises` — `os.makedirs` or the
`cv2.VideoWriter` constructor raised an exception. -/
inductive AllocOutcome where
  | ok
  | notOpened
  | raises
deriving Repr, DecidableEq

/-- Error message printed at capture_video.py line 126 (the filepath part is
abstracted away). -/
def failedOpenMsg : String := "ERROR Failed to open video writer"

/-- The SNAPSHOT LOGIC block of `trigger_recording` (capture_video.py lines
82-95): when a snapshot sequence is requested and the cooldown has passed,
record the snapshot time, persist the previous and current buffered frames
when present, and arm a two-frame burst. -/
def snapshotLogic (r0 : VideoRecorder) (snapshot_sequence : Bool) (now : Int) : VideoRecorder :=
  if snapshot_sequence ∧ r0.cfg.snapshot_cooldown < now - r0.last_snapshot_time then
    { r0 with
      last_snapshot_time := now
      snapshots := r0.snapshots
        ++ (if 2 ≤ r0.frame_buffer.length then
              [("prev", r0.frame_buffer.getD (r0.frame_buffer.length - 2) 0)] else [])
        ++ (if 1 ≤ r0.frame_buffer.length then
              [("curr", r0.frame_buffer.getD (r0.frame_buffer.length - 1) 0)] else [])
      snapshot_frames_left := 2 }
  else r0

/-- `VideoRecorder.trigger_recording` (capture_video.py lines 67-133).
Returns the new state and a Bool that is true when an exception propagated out
of the call (allocation raised after `is_recording` was already set).
`now` is `time.time()`. -/
def trigger_recording (r : VideoRecorder) (alert_types : List String)
    (snapshot_sequence : Bool) (now : Int) (alloc : AllocOutcome) :
    VideoRecorder × Bool :=
  -- SNAPSHOT LOGIC (lines 82-95)
  let r1 := snapshotLogic { r with last_alert_types := alert_types } snapshot_sequence now
  -- VIDEO LOGIC (lines 98-133)
  if r1.is_recording then
    ({ r1 with remaining_frames_to_record := r1.cfg.post_frames }, false)
  else
    let r2 := { r1 with is_recording := true, remaining_frames_to_record := r1.cfg.post_frames }
    match alloc with
    | .raises => (r2, true)
    | .notOpened =>
        ({ r2 with
            active_writer := some { opened := false, frames := [] }
            is_recording := false
            error_log := r2.error_log ++ [failedOpenMsg] }, false)
    | .ok =>
        ({ r2 with active_writer := some { opened := true, frames := r2.frame_buffer } }, false)

/-! ## video_analyzer.py: access-control policy -/

/-- `BOSS_CABIN_OPEN_HOUR = 15` (video_analyzer.py line 72). -/
def BOSS_CABIN_OPEN_HOUR : Nat := 15
/-- `BOSS_CABIN_CLOSE_HOUR = 16` (line 73). -/
def BOSS_CABIN_CLOSE_HOUR : Nat := 16
/-- `OFFICE_OPEN_HOUR = 9` (line 76). -/
def OFFICE_OPEN_HOUR : Nat := 9
/-- `OFFICE_OPEN_MIN = 30` (line 77). -/
def OFFICE_OPEN_MIN : Nat := 30
/-- `OFFICE_CLOSE_HOUR = 18` (line 78). -/
def OFFICE_CLOSE_HOUR : Nat := 18
/-- `OFFICE_CLOSE_MIN = 15` (line 79). -/
def OFFICE_CLOSE_MIN : Nat := 15

/-- The fields of a `datetime.datetime` used by `check_policy_violation`:
`weekday()` (0 = Monday, 6 = Sunday), `hour`, `minute`. -/
structure PTime where
  weekday : Nat
  hour : Nat
  minute : Nat
deriving Repr, DecidableEq

/-- `check_policy_violation` (video_analyzer.py lines 158-190). -/
def check_policy_violation (camera_name : String) (t : PTime) : List String :=
  let alerts : List String := []
  -- Condition A: Sunday (All day restricted)
  let alerts := if t.weekday = 6 then alerts ++ ["RESTRICTED_ACCESS_SUNDAY"] else alerts
  if camera_name = "BOSS_CABIN" then
    if t.hour < BOSS_CABIN_OPEN_HOUR ∨ BOSS_CABIN_CLOSE_HOUR ≤ t.hour then
      alerts ++ ["RESTRICTED_ACCESS_BOSS_CABIN"]
    else alerts
  else
    if t.hour < OFFICE_OPEN_HOUR ∨ (t.hour = OFFICE_OPEN_HOUR ∧ t.minute < OFFICE_OPEN_MIN) then
      alerts ++ ["RESTRICTED_ACCESS_BEFORE_HOURS"]
    else if OFFICE_CLOSE_HOUR < t.hour ∨ (t.hour = OFFICE_CLOSE_HOUR ∧ OFFICE_CLOSE_MIN ≤ t.minute) then
      alerts ++ ["RESTRICTED_ACCESS_AFTER_HOURS"]
    else alerts

/-! ## video_analyzer.py: per-frame decision logic of tiler_sink_pad_buffer_probe -/

/-- `HEARTBEAT_INTERVAL = 60.0` (video_analyzer.py line 32). -/
def HEARTBEAT_INTERVAL : Int := 60
/-- `ALERT_COOLDOWN = 5.0` (line 33). -/
def ALERT_COOLDOWN : Int := 5

/-- One detection as extracted from object metadata (lines 256-275):
label, confidence (negative = stale tracker re-emission) and bounding box.
Confidence is modelled as an Int (only its sign and identity matter here). -/
structure Detection where
  label : String
  confidence : Int
  class_id : Int
  top : Int
  left : Int
  width : Int
  height : Int
deriving Repr, DecidableEq

/-- Python `str.lower()` on the label strings used here (ASCII lowering,
character by character); written over the character list so that it is
kernel-reducible. -/
def pyLower (s : String) : String := ⟨s.data.map Char.toLower⟩

/-- The object-collection loop (lines 250-282): detections with negative
confidence are skipped (`if obj_meta.confidence < 0: continue`), the rest are
kept in order. -/
def frame_objects (dets : List Detection) : List Detection :=
  dets.filter (fun d => decide (0 ≤ d.confidence))

/-- The per-camera rate-limiter timers (`last_heartbeat_time[cam]`,
`last_alert_time[cam]`, both defaulting to 0 via `.get(cam, 0)`). -/
structure CamTimers where
  last_heartbeat_time : Int
  last_alert_time : Int
deriving Repr, DecidableEq

/-- A record handed to `write_json_log` by the probe: an EVENT payload
(lines 325-338) or a METRIC payload (lines 353-366). -/
inductive Payload where
  | event (triggers : List String) (people_count : Nat) (detections : List Detection)
  | metric (people_count : Nat) (detections : List Detection)
deriving Repr, DecidableEq

/-- Alert computation (lines 298-310): policy violations for this camera and
time, then `FIRE_SMOKE_DETECTED` if any fire/smoke object, then
`VIOLENCE_DETECTED` if any violence/fight object. -/
def site_alerts (camera_name : String) (t : PTime) (objs : List Detection) : List String :=
  let a := check_policy_violation camera_name t
  let fire_objs := objs.filter (fun o => decide (o.label = "fire" ∨ o.label = "smoke"))
  let a := if fire_objs ≠ [] then a ++ ["FIRE_SMOKE_DETECTED"] else a
  let fight_objs := objs.filter (fun o => decide (o.label = "violence" ∨ o.label = "fight"))
  if fight_objs ≠ [] then a ++ ["VIOLENCE_DETECTED"] else a

/-- The decision body of the probe for one frame, after `frame_objects` has
been computed (video_analyzer.py lines 285-371): the person/tv gate, people
count, alerts, the two rate limiters and the at-most-one emitted payload.
`now` is `time.time()`; `t` is `datetime.datetime.now()`. -/
def process_objs (camera : String) (t : PTime) (now : Int) (s : CamTimers)
    (objs : List Detection) : CamTimers × Option Payload :=
  if objs ≠ [] ∧ objs.any (fun o => decide (pyLower o.label = "person" ∨ pyLower o.label = "tv")) then
    let num_people := (objs.filter (fun o => decide (pyLower o.label = "person"))).length
    let alerts := site_alerts camera t objs
    let is_event := decide (0 < alerts.length)
    let should_log_event := is_event && decide (ALERT_COOLDOWN ≤ now - s.last_alert_time)
    let should_log_heartbeat := decide (HEARTBEAT_INTERVAL ≤ now - s.last_heartbeat_time)
    if should_log_event then
      ({ s with last_alert_time := now }, some (.event alerts num_people objs))
    else if should_log_heartbeat then
      ({ s with last_heartbeat_time := now }, some (.metric num_people objs))
    else (s, none)
  else (s, none)

/-- Processing of one frame's detection list for one camera (the probe body):
filter negative-confidence detections, then decide what to emit. -/
def process_frame (camera : String) (t : PTime) (now : Int) (s : CamTimers)
    (dets : List Detection) : CamTimers × Option Payload :=
  process_objs camera t now s (frame_objects dets)

/-- One processed batch for a fixed camera: the wall-clock datetime fields,
the epoch time, and the raw detections. -/
structure Batch where
  t : PTime
  now : Int
  dets : List Detection
deriving Repr, DecidableEq

/-- Running a sequence of batches for one camera, collecting the emitted
payloads together with their emission times. -/
def run_batches (camera : String) (s : CamTimers) : List Batch → CamTimers × List (Int × Payload)
  | [] => (s, [])
  | b :: bs =>
    let step := process_frame camera b.t b.now s b.dets
    let rest := run_batches camera step.1 bs
    (rest.1, (match step.2 with
              | some p => [(b.now, p)]
              | none => []) ++ rest.2)

/-- Given the time of the last heartbeat, checks that every METRIC emission in
the list comes at least `HEARTBEAT_INTERVAL` after the previous heartbeat. -/
def metricsSpacedB (h : Int) : List (Int × Payload) → Bool
  | [] => true
  | (tm, Payload.metric _ _) :: rest =>
      decide (HEARTBEAT_INTERVAL ≤ tm - h) && metricsSpacedB tm rest
  | (_, Payload.event _ _ _) :: rest => metricsSpacedB h rest

/-! ## video_analyzer.py: write_json_log

The log file is modelled as a `List Char`. `str.isspace` is modelled by
`Char.isWhitespace` (they agree on the ASCII characters occurring here).
`json.dump(data, f, separators=(',', ':'))` writes an abstract serialized
record, taken as a `List Char` parameter. Writing at a position in `r+` mode
overwrites bytes from that position on without truncating. -/

/-- Index of the last `]` in the file, if any: the backward scan of
video_analyzer.py lines 101-110. -/
def findLastRB : List Char → Option Nat
  | [] => none
  | c :: cs =>
    match findLastRB cs with
    | some i => some (i + 1)
    | none => if c = ']' then some 0 else none

/-- The backward emptiness scan of lines 124-136, applied to the characters
preceding the bracket position in reverse order: skip whitespace; at the first
non-whitespace character the array is empty iff it is `[`; if only whitespace
remains the flag stays false. -/
def emptyScanRev : List Char → Bool
  | [] => false
  | c :: cs => if c.isWhitespace then emptyScanRev cs else decide (c = '[')

/-- `is_array_empty` as computed for bracket position `pos` (lines 121-136). -/
def isArrayEmptyAt (file : List Char) (pos : Nat) : Bool :=
  emptyScanRev (file.take pos).reverse

/-- Overwriting file contents with `w` starting at byte `pos` (file opened in
`r+` mode): earlier bytes kept, overwritten span replaced, any bytes beyond
the written span kept. -/
def writeAt (file : List Char) (pos : Nat) (w : List Char) : List Char :=
  file.take pos ++ w ++ file.drop (pos + w.length)

/-- `write_json_log` (video_analyzer.py lines 87-156) on a file that raises no
I/O exception. `rec` is the serialized record produced by `json.dump`. -/
def write_json_log (file rec : List Char) : List Char :=
  match findLastRB file with
  | none =>
      -- Fallback (lines 112-119): truncate and reset to a one-element array
      '[' :: '\n' :: rec ++ ['\n', ']']
  | some pos =>
      let w :=
        if isArrayEmptyAt file pos then
          '\n' :: rec ++ ['\n', ']']
        else
          ',' :: '\n' :: rec ++ ['\n', ']']
      writeAt file pos w

/-- A serialized JSON value as produced by `json.dump`: it has at least one
non-whitespace character, and its last non-whitespace character is not `[`
(a serialized value ends in a digit, quote, brace, bracket or letter). -/
def GoodRecord (rec : List Char) : Prop :=
  match rec.reverse.dropWhile Char.isWhitespace with
  | [] => False
  | c :: _ => c ≠ '['

instance : DecidablePred GoodRecord := by
  intro rec
  unfold GoodRecord
  cases rec.reverse.dropWhile Char.isWhitespace with
  | nil => exact inferInstanceAs (Decidable False)
  | cons c _ => exact inferInstanceAs (Decidable (c ≠ '['))

/-- The exact byte layout `write_json_log` produces for a list of appended
records, starting from the initial file `[]` (line 85). -/
def render : List (List Char) → List Char
  | [] => ['[', ']']
  | r :: rs => '[' :: '\n' :: (r ++ rs.flatMap (fun x => '\n' :: ',' :: '\n' :: x)) ++ ['\n', ']']

/-- Appending a list of records in order with `write_json_log`. -/
def applyWrites (file : List Char) (recs : List (List Char)) : List Char :=
  recs.foldl write_json_log file

/-! ## Concrete instances used by witnesses and counterexamples -/

/-- A small concrete configuration: 1s pre-buffer, 1s post-event, 2 fps,
3s snapshot cooldown (so `buffer_len = 2` and `post_frames = 2`). -/
def cfg0 : RecConfig := ⟨1, 1, 2, 3⟩

/-- An idle recorder whose ring buffer holds the frames 7 and 8. -/
def recIdle : VideoRecorder := addFrames (VideoRecorder.mkInit cfg0) [7, 8]

/-- A recorder in the middle of an active recording: one frame still to
record, writer open with one frame written. -/
def recActive : VideoRecorder :=
  { VideoRecorder.mkInit cfg0 with
      is_recording := true
      remaining_frames_to_record := 1
      active_writer := some { opened := true, frames := [5] } }

/-- A person detection with positive confidence. -/
def dP : Detection := ⟨"person", 1, 0, 0, 0, 0, 0⟩

/-- A person detection with the −1 sentinel confidence (stale tracker
re-emission). -/
def dNeg : Detection := ⟨"person", -1, 0, 0, 0, 0, 0⟩

/-- A batch on a Sunday at 12:00 (epoch second 100) with one person visible:
policy makes it an event. -/
def batchSunday : Batch := ⟨⟨6, 12, 0⟩, 100, [dP]⟩

/-- A batch on a Tuesday at 12:00 (epoch second 101) with one person visible:
no alert. -/
def batchTuesday : Batch := ⟨⟨1, 12, 0⟩, 101, [dP]⟩

/-! ## Field-preservation lemmas -/

lemma snapshotLogic_fields (r : VideoRecorder) (s : Bool) (n : Int) :
    (snapshotLogic r s n).cfg = r.cfg ∧
    (snapshotLogic r s n).frame_buffer = r.frame_buffer ∧
    (snapshotLogic r s n).is_recording = r.is_recording ∧
    (snapshotLogic r s n).remaining_frames_to_record = r.remaining_frames_to_record ∧
    (snapshotLogic r s n).active_writer = r.active_writer ∧
    (snapshotLogic r s n).closed_outputs = r.closed_outputs ∧
    (snapshotLogic r s n).error_log = r.error_log ∧
    (snapshotLogic r s n).last_alert_types = r.last_alert_types := by
  unfold snapshotLogic
  split_ifs <;> simp

@[simp] lemma snapshotLogic_cfg (r : VideoRecorder) (s : Bool) (n : Int) :
    (snapshotLogic r s n).cfg = r.cfg := (snapshotLogic_fields r s n).1

@[simp] lemma snapshotLogic_frame_buffer (r : VideoRecorder) (s : Bool) (n : Int) :
    (snapshotLogic r s n).frame_buffer = r.frame_buffer := (snapshotLogic_fields r s n).2.1

@[simp] lemma snapshotLogic_is_recording (r : VideoRecorder) (s : Bool) (n : Int) :
    (snapshotLogic r s n).is_recording = r.is_recording := (snapshotLogic_fields r s n).2.2.1

@[simp] lemma snapshotLogic_remaining (r : VideoRecorder) (s : Bool) (n : Int) :
    (snapshotLogic r s n).remaining_frames_to_record = r.remaining_frames_to_record :=
  (snapshotLogic_fields r s n).2.2.2.1

@[simp] lemma snapshotLogic_active_writer (r : VideoRecorder) (s : Bool) (n : Int) :
    (snapshotLogic r s n).active_writer = r.active_writer := (snapshotLogic_fields r s n).2.2.2.2.1

@[simp] lemma snapshotLogic_closed_outputs (r : VideoRecorder) (s : Bool) (n : Int) :
    (snapshotLogic r s n).closed_outputs = r.closed_outputs := (snapshotLogic_fields r s n).2.2.2.2.2.1

@[simp] lemma snapshotLogic_error_log (r : VideoRecorder) (s : Bool) (n : Int) :
    (snapshotLogic r s n).error_log = r.error_log := (snapshotLogic_fields r s n).2.2.2.2.2.2.1

@[simp] lemma stopRecording_is_recording (r : VideoRecorder) :
    (stopRecording r).is_recording = false := rfl

@[simp] lemma stopRecording_active_writer (r : VideoRecorder) :
    (stopRecording r).active_writer = none := rfl

@[simp] lemma stopRecording_cfg (r : VideoRecorder) : (stopRecording r).cfg = r.cfg := rfl

@[simp] lemma stopRecording_remaining (r : VideoRecorder) :
    (stopRecording r).remaining_frames_to_record = r.remaining_frames_to_record := rfl

@[simp] lemma stopRecording_snapshots (r : VideoRecorder) :
    (stopRecording r).snapshots = r.snapshots := rfl

@[simp] lemma stopRecording_snapshot_frames_left (r : VideoRecorder) :
    (stopRecording r).snapshot_frames_left = r.snapshot_frames_left := rfl

@[simp] lemma stopRecording_last_snapshot_time (r : VideoRecorder) :
    (stopRecording r).last_snapshot_time = r.last_snapshot_time := rfl

@[simp] lemma stopRecording_frame_buffer (r : VideoRecorder) :
    (stopRecording r).frame_buffer = r.frame_buffer := rfl

@[simp] lemma stopRecording_error_log (r : VideoRecorder) :
    (stopRecording r).error_log = r.error_log := rfl

lemma recordStep_fields (r : VideoRecorder) (f : Nat) :
    (recordStep r f).cfg = r.cfg ∧
    (recordStep r f).frame_buffer = r.frame_buffer ∧
    (recordStep r f).snapshots = r.snapshots ∧
    (recordStep r f).snapshot_frames_left = r.snapshot_frames_left ∧
    (recordStep r f).last_snapshot_time = r.last_snapshot_time ∧
    (recordStep r f).error_log = r.error_log := by
  unfold recordStep
  dsimp only
  split <;> simp

@[simp] lemma recordStep_cfg (r : VideoRecorder) (f : Nat) :
    (recordStep r f).cfg = r.cfg := (recordStep_fields r f).1

@[simp] lemma recordStep_frame_buffer (r : VideoRecorder) (f : Nat) :
    (recordStep r f).frame_buffer = r.frame_buffer := (recordStep_fields r f).2.1

@[simp] lemma recordStep_snapshots (r : VideoRecorder) (f : Nat) :
    (recordStep r f).snapshots = r.snapshots := (recordStep_fields r f).2.2.1

@[simp] lemma recordStep_snapshot_frames_left (r : VideoRecorder) (f : Nat) :
    (recordStep r f).snapshot_frames_left = r.snapshot_frames_left := (recordStep_fields r f).2.2.2.1

@[simp] lemma recordStep_last_snapshot_time (r : VideoRecorder) (f : Nat) :
    (recordStep r f).last_snapshot_time = r.last_snapshot_time := (recordStep_fields r f).2.2.2.2.1

@[simp] lemma recordStep_error_log (r : VideoRecorder) (f : Nat) :
    (recordStep r f).error_log = r.error_log := (recordStep_fields r f).2.2.2.2.2

lemma snapshotStep_fields (r : VideoRecorder) (f : Nat) :
    (snapshotStep r f).cfg = r.cfg ∧
    (snapshotStep r f).frame_buffer = r.frame_buffer ∧
    (snapshotStep r f).is_recording = r.is_recording ∧
    (snapshotStep r f).remaining_frames_to_record = r.remaining_frames_to_record ∧
    (snapshotStep r f).active_writer = r.active_writer ∧
    (snapshotStep r f).closed_outputs = r.closed_outputs ∧
    (snapshotStep r f).last_snapshot_time = r.last_snapshot_time ∧
    (snapshotStep r f).error_log = r.error_log := by
  unfold snapshotStep
  split_ifs <;> simp

@[simp] lemma snapshotStep_cfg (r : VideoRecorder) (f : Nat) :
    (snapshotStep r f).cfg = r.cfg := (snapshotStep_fields r f).1

@[simp] lemma snapshotStep_is_recording (r : VideoRecorder) (f : Nat) :
    (snapshotStep r f).is_recording = r.is_recording := (snapshotStep_fields r f).2.2.1

@[simp] lemma snapshotStep_remaining (r : VideoRecorder) (f : Nat) :
    (snapshotStep r f).remaining_frames_to_record = r.remaining_frames_to_record :=
  (snapshotStep_fields r f).2.2.2.1

@[simp] lemma snapshotStep_active_writer (r : VideoRecorder) (f : Nat) :
    (snapshotStep r f).active_writer = r.active_writer := (snapshotStep_fields r f).2.2.2.2.1

@[simp] lemma snapshotStep_closed_outputs (r : VideoRecorder) (f : Nat) :
    (snapshotStep r f).closed_outputs = r.closed_outputs := (snapshotStep_fields r f).2.2.2.2.2.1

@[simp] lemma snapshotStep_last_snapshot_time (r : VideoRecorder) (f : Nat) :
    (snapshotStep r f).last_snapshot_time = r.last_snapshot_time := (snapshotStep_fields r f).2.2.2.2.2.2.1

@[simp] lemma bufferStep_cfg (r : VideoRecorder) (f : Nat) : (bufferStep r f).cfg = r.cfg := rfl

@[simp] lemma bufferStep_is_recording (r : VideoRecorder) (f : Nat) :
    (bufferStep r f).is_recording = r.is_recording := rfl

@[simp] lemma bufferStep_remaining (r : VideoRecorder) (f : Nat) :
    (bufferStep r f).remaining_frames_to_record = r.remaining_frames_to_record := rfl

@[simp] lemma bufferStep_active_writer (r : VideoRecorder) (f : Nat) :
    (bufferStep r f).active_writer = r.active_writer := rfl

@[simp] lemma bufferStep_closed_outputs (r : VideoRecorder) (f : Nat) :
    (bufferStep r f).closed_outputs = r.closed_outputs := rfl

@[simp] lemma bufferStep_snapshots (r : VideoRecorder) (f : Nat) :
    (bufferStep r f).snapshots = r.snapshots := rfl

@[simp] lemma bufferStep_snapshot_frames_left (r : VideoRecorder) (f : Nat) :
    (bufferStep r f).snapshot_frames_left = r.snapshot_frames_left := rfl

@[simp] lemma bufferStep_last_snapshot_time (r : VideoRecorder) (f : Nat) :
    (bufferStep r f).last_snapshot_time = r.last_snapshot_time := rfl

@[simp] lemma bufferStep_error_log (r : VideoRecorder) (f : Nat) :
    (bufferStep r f).error_log = r.error_log := rfl

/-- A Wednesday (weekday 2) timestamp at 12:00, used as a concrete non-Sunday
instant. -/
def tWed : PTime := ⟨2, 12, 0⟩

/-! ## C3 -/

/-- Claim C3 evaluation: at 10:59 on a non-Sunday the BOSS_CABIN policy result
is the singleton restricted tag (as the claim says), but at 12:00 it is again
the singleton restricted tag, not the empty set the claim demands (the code
constant `BOSS_CABIN_OPEN_HOUR = 15` contradicts the source comments that the
safe hours start at 11:00); for any other camera on a Sunday at 12:00 the
result does include the weekday tag. -/
theorem policy_boss_cabin_eval :
    check_policy_violation "BOSS_CABIN" ⟨2, 10, 59⟩ = ["RESTRICTED_ACCESS_BOSS_CABIN"] ∧
    check_policy_violation "BOSS_CABIN" ⟨2, 12, 0⟩ = ["RESTRICTED_ACCESS_BOSS_CABIN"] ∧
    "RESTRICTED_ACCESS_SUNDAY" ∈ check_policy_violation "RECEPTION_AREA" ⟨6, 12, 0⟩ := by
  refine ⟨rfl, rfl, ?_⟩
  decide

/-! ## C4 -/

/-- Claim C4 counterexample: on a Sunday the BOSS_CABIN policy result does
include the weekday tag "RESTRICTED_ACCESS_SUNDAY" (condition A at
video_analyzer.py line 171 runs before the camera branch, for every camera),
refuting "never includes the weekday tag". -/
theorem policy_boss_cabin_sunday_tag_cex :
    "RESTRICTED_ACCESS_SUNDAY" ∈ check_policy_violation "BOSS_CABIN" ⟨6, 12, 0⟩ := by
  decide

/-- Claim C4 (amended): on every non-Sunday timestamp the BOSS_CABIN policy
result never includes the weekday tag, and outside the `[15,16)` window it is
exactly the one restricted tag (inside the window it is empty); on Sundays
the weekday rule does apply to BOSS_CABIN as to every camera. -/
theorem policy_boss_cabin_no_sunday_tag_weekdays (t : PTime) (hns : t.weekday ≠ 6) :
    "RESTRICTED_ACCESS_SUNDAY" ∉ check_policy_violation "BOSS_CABIN" t ∧
    ((t.hour < BOSS_CABIN_OPEN_HOUR ∨ BOSS_CABIN_CLOSE_HOUR ≤ t.hour) →
      check_policy_violation "BOSS_CABIN" t = ["RESTRICTED_ACCESS_BOSS_CABIN"]) ∧
    (¬(t.hour < BOSS_CABIN_OPEN_HOUR ∨ BOSS_CABIN_CLOSE_HOUR ≤ t.hour) →
      check_policy_violation "BOSS_CABIN" t = []) := by
  unfold check_policy_violation
  dsimp only
  rw [if_neg hns, if_pos rfl]
  refine ⟨?_, fun h => by rw [if_pos h]; rfl, fun h => by rw [if_neg h]⟩
  split_ifs <;> decide

/-- Witness for the amended C4 theorem at the concrete non-Sunday instant
Wednesday 12:00. -/
theorem policy_boss_cabin_no_sunday_tag_weekdays_witness :
    tWed.weekday ≠ 6 ∧
    ("RESTRICTED_ACCESS_SUNDAY" ∉ check_policy_violation "BOSS_CABIN" tWed ∧
     ((tWed.hour < BOSS_CABIN_OPEN_HOUR ∨ BOSS_CABIN_CLOSE_HOUR ≤ tWed.hour) →
       check_policy_violation "BOSS_CABIN" tWed = ["RESTRICTED_ACCESS_BOSS_CABIN"]) ∧
     (¬(tWed.hour < BOSS_CABIN_OPEN_HOUR ∨ BOSS_CABIN_CLOSE_HOUR ≤ tWed.hour) →
       check_policy_violation "BOSS_CABIN" tWed = [])) :=
  ⟨by decide, policy_boss_cabin_no_sunday_tag_weekdays tWed (by decide)⟩

/-! ## C8 -/

/-- Claim C8 counterexample: when the allocation raises (e.g. `os.makedirs`
fails), the exception propagates out of `trigger_recording` and the recorder
is left with `is_recording = true`, not Idle — `trigger_recording` has no
try/except and sets `is_recording` before creating the directory. -/
theorem trigger_raises_cex :
    (trigger_recording (VideoRecorder.mkInit cfg0) ["X"] true 10 .raises).2 = true ∧
    (trigger_recording (VideoRecorder.mkInit cfg0) ["X"] true 10 .raises).1.is_recording = true := by
  decide

/-- Claim C8 (amended): for an Idle recorder, when the allocation failure is
the video writer failing to open (`isOpened()` false, capture_video.py line
125), the recorder is reset to Idle, the failure is logged as a capture
error, and no exception propagates; a failure that raises during directory
creation or writer construction instead propagates and leaves
`is_recording = true`. -/
theorem trigger_open_failure_stays_idle (r : VideoRecorder) (alerts : List String)
    (snap : Bool) (now : Int) (hidle : r.is_recording = false) :
    (trigger_recording r alerts snap now .notOpened).1.is_recording = false ∧
    (trigger_recording r alerts snap now .notOpened).2 = false ∧
    (trigger_recording r alerts snap now .notOpened).1.error_log
      = r.error_log ++ [failedOpenMsg] := by
  unfold trigger_recording
  dsimp only
  have hc : (snapshotLogic { r with last_alert_types := alerts } snap now).is_recording = false := by
    rw [snapshotLogic_is_recording]
    exact hidle
  rw [if_neg (by rw [hc]; exact Bool.false_ne_true)]
  refine ⟨rfl, rfl, ?_⟩
  dsimp only
  rw [snapshotLogic_error_log]

/-- Witness for the amended C8 theorem: the concrete idle recorder `recIdle`. -/
theorem trigger_open_failure_stays_idle_witness :
    recIdle.is_recording = false ∧
    ((trigger_recording recIdle ["X"] true 10 .notOpened).1.is_recording = false ∧
     (trigger_recording recIdle ["X"] true 10 .notOpened).2 = false ∧
     (trigger_recording recIdle ["X"] true 10 .notOpened).1.error_log
       = recIdle.error_log ++ [failedOpenMsg]) :=
  ⟨by decide, trigger_open_failure_stays_idle recIdle ["X"] true 10 (by decide)⟩

/-! ## C7 -/

/-- `recordStep` always decrements the remaining counter by one. -/
@[simp] lemma recordStep_remaining (r : VideoRecorder) (f : Nat) :
    (recordStep r f).remaining_frames_to_record = r.remaining_frames_to_record - 1 := by
  unfold recordStep
  dsimp only
  split <;> simp

/-- Claim C7: a `trigger_recording` call on an Active recorder resets the
remaining-frames counter to exactly `post_event_seconds*fps` without
releasing, replacing or reopening the active writer (writer handle and closed
outputs unchanged, still Active, no exception); since the counter never
exceeds that ceiling (`add_frame` only decrements it and triggers only set it
to the ceiling), the reset never shortens the remaining duration. -/
theorem trigger_while_active_extends (r : VideoRecorder) (alerts : List String)
    (snap : Bool) (now : Int) (alloc : AllocOutcome) (f : Nat)
    (hact : r.is_recording = true)
    (hceil : r.remaining_frames_to_record ≤ r.cfg.post_frames) :
    (trigger_recording r alerts snap now alloc).1.remaining_frames_to_record = r.cfg.post_frames ∧
    (trigger_recording r alerts snap now alloc).1.active_writer = r.active_writer ∧
    (trigger_recording r alerts snap now alloc).1.closed_outputs = r.closed_outputs ∧
    (trigger_recording r alerts snap now alloc).1.is_recording = true ∧
    (trigger_recording r alerts snap now alloc).2 = false ∧
    r.remaining_frames_to_record ≤ (trigger_recording r alerts snap now alloc).1.remaining_frames_to_record ∧
    (trigger_recording r alerts snap now alloc).1.remaining_frames_to_record ≤ r.cfg.post_frames ∧
    (add_frame r f).remaining_frames_to_record ≤ r.cfg.post_frames := by
  have hadd : (add_frame r f).remaining_frames_to_record
      = r.remaining_frames_to_record - 1 := by
    unfold add_frame
    dsimp only
    rw [snapshotStep_remaining]
    rw [if_pos (by rw [bufferStep_is_recording]; exact hact)]
    rw [recordStep_remaining, bufferStep_remaining]
  unfold trigger_recording
  dsimp only
  rw [if_pos (by rw [snapshotLogic_is_recording]; exact hact)]
  dsimp only
  rw [snapshotLogic_cfg, snapshotLogic_active_writer, snapshotLogic_closed_outputs,
    snapshotLogic_is_recording]
  refine ⟨rfl, rfl, rfl, hact, rfl, hceil, le_refl _, ?_⟩
  rw [hadd]
  omega

/-- Witness for the C7 theorem: the concrete mid-recording recorder
`recActive` (remaining counter 1, ceiling 2). -/
theorem trigger_while_active_extends_witness :
    recActive.is_recording = true ∧
    recActive.remaining_frames_to_record ≤ recActive.cfg.post_frames ∧
    ((trigger_recording recActive ["X"] true 10 .ok).1.remaining_frames_to_record = recActive.cfg.post_frames ∧
     (trigger_recording recActive ["X"] true 10 .ok).1.active_writer = recActive.active_writer ∧
     (trigger_recording recActive ["X"] true 10 .ok).1.closed_outputs = recActive.closed_outputs ∧
     (trigger_recording recActive ["X"] true 10 .ok).1.is_recording = true ∧
     (trigger_recording recActive ["X"] true 10 .ok).2 = false ∧
     recActive.remaining_frames_to_record ≤ (trigger_recording recActive ["X"] true 10 .ok).1.remaining_frames_to_record ∧
     (trigger_recording recActive ["X"] true 10 .ok).1.remaining_frames_to_record ≤ recActive.cfg.post_frames ∧
     (add_frame recActive 9).remaining_frames_to_record ≤ recActive.cfg.post_frames) :=
  ⟨by decide, by decide, trigger_while_active_extends recActive ["X"] true 10 .ok 9 (by decide) (by decide)⟩

/-! ## C10 -/

/-- The video logic of `trigger_recording` never touches the snapshot state:
the snapshot fields of the result are those left by the snapshot logic, and
the configuration is unchanged. -/
lemma trigger_snapshot_fields (r : VideoRecorder) (alerts : List String)
    (snap : Bool) (now : Int) (alloc : AllocOutcome) :
    (trigger_recording r alerts snap now alloc).1.snapshots
      = (snapshotLogic { r with last_alert_types := alerts } snap now).snapshots ∧
    (trigger_recording r alerts snap now alloc).1.snapshot_frames_left
      = (snapshotLogic { r with last_alert_types := alerts } snap now).snapshot_frames_left ∧
    (trigger_recording r alerts snap now alloc).1.last_snapshot_time
      = (snapshotLogic { r with last_alert_types := alerts } snap now).last_snapshot_time ∧
    (trigger_recording r alerts snap now alloc).1.cfg = r.cfg := by
  unfold trigger_recording
  dsimp only
  split
  · simp
  · cases alloc <;> simp

/-- With an empty ring buffer and an elapsed cooldown, the snapshot logic
persists nothing but arms the two-frame burst and updates the snapshot time. -/
lemma snapshotLogic_empty_buffer (r : VideoRecorder) (now : Int)
    (hcool : r.cfg.snapshot_cooldown < now - r.last_snapshot_time)
    (hemp : r.frame_buffer = []) :
    (snapshotLogic r true now).snapshots = r.snapshots ∧
    (snapshotLogic r true now).snapshot_frames_left = 2 ∧
    (snapshotLogic r true now).last_snapshot_time = now := by
  unfold snapshotLogic
  rw [if_pos ⟨rfl, hcool⟩]
  simp [hemp]

/-- When the cooldown has not elapsed, the snapshot logic is the identity. -/
lemma snapshotLogic_cooldown_suppressed (r : VideoRecorder) (snap : Bool) (now2 : Int)
    (h : ¬ r.cfg.snapshot_cooldown < now2 - r.last_snapshot_time) :
    snapshotLogic r snap now2 = r := by
  unfold snapshotLogic
  rw [if_neg]
  rintro ⟨-, hc⟩
  exact h hc

/-- The effect of `add_frame` on the snapshot-burst state: while the burst is
pending the frame is persisted labelled "seq" and the counter decremented;
the snapshot time is never changed. -/
lemma add_frame_snapshot_facts (r : VideoRecorder) (f : Nat) :
    (add_frame r f).snapshots
      = (if 0 < r.snapshot_frames_left then r.snapshots ++ [("seq", f)] else r.snapshots) ∧
    (add_frame r f).snapshot_frames_left
      = (if 0 < r.snapshot_frames_left then r.snapshot_frames_left - 1 else r.snapshot_frames_left) ∧
    (add_frame r f).last_snapshot_time = r.last_snapshot_time := by
  unfold add_frame
  dsimp only
  simp only [bufferStep_is_recording]
  have hl : (if r.is_recording = true then recordStep (bufferStep r f) f
      else bufferStep r f).snapshot_frames_left = r.snapshot_frames_left := by
    split <;> simp
  have hs : (if r.is_recording = true then recordStep (bufferStep r f) f
      else bufferStep r f).snapshots = r.snapshots := by
    split <;> simp
  have ht : (if r.is_recording = true then recordStep (bufferStep r f) f
      else bufferStep r f).last_snapshot_time = r.last_snapshot_time := by
    split <;> simp
  unfold snapshotStep
  rw [hl]
  split <;> simp [hl, hs, ht]

/-- Claim C10: triggering a recorder whose ring buffer is empty, with
snapshot sequence requested and the snapshot cooldown elapsed, persists no
"prev" and no "curr" image yet still arms the two-frame burst
(`snapshot_frames_left = 2`, so the next two frames delivered through
`add_frame` are persisted labelled "seq") and still updates the last-snapshot
time to `now`, so a further trigger within `snapshot_cooldown` seconds starts
no new burst and leaves the snapshot time unchanged. -/
theorem trigger_empty_buffer_burst (r : VideoRecorder) (alerts alerts2 : List String)
    (now now2 : Int) (f1 f2 : Nat) (alloc alloc2 : AllocOutcome)
    (hemp : r.frame_buffer = [])
    (hcool : r.cfg.snapshot_cooldown < now - r.last_snapshot_time) :
    (trigger_recording r alerts true now alloc).1.snapshots = r.snapshots ∧
    (trigger_recording r alerts true now alloc).1.snapshot_frames_left = 2 ∧
    (trigger_recording r alerts true now alloc).1.last_snapshot_time = now ∧
    (add_frame (add_frame (trigger_recording r alerts true now alloc).1 f1) f2).snapshots
      = r.snapshots ++ [("seq", f1), ("seq", f2)] ∧
    (now2 - now ≤ r.cfg.snapshot_cooldown →
      (trigger_recording (trigger_recording r alerts true now alloc).1 alerts2 true now2 alloc2).1.snapshots
        = r.snapshots ∧
      (trigger_recording (trigger_recording r alerts true now alloc).1 alerts2 true now2 alloc2).1.last_snapshot_time
        = now) := by
  obtain ⟨hts, htl, htt, htc⟩ := trigger_snapshot_fields r alerts true now alloc
  obtain ⟨hss, hsl, hst⟩ := snapshotLogic_empty_buffer { r with last_alert_types := alerts } now hcool hemp
  set r1 := (trigger_recording r alerts true now alloc).1 with hr1
  have h1s : r1.snapshots = r.snapshots := by rw [hts, hss]
  have h1l : r1.snapshot_frames_left = 2 := by rw [htl, hsl]
  have h1t : r1.last_snapshot_time = now := by rw [htt, hst]
  obtain ⟨ha1s, ha1l, ha1t⟩ := add_frame_snapshot_facts r1 f1
  have h2s : (add_frame r1 f1).snapshots = r.snapshots ++ [("seq", f1)] := by
    rw [ha1s, h1l, h1s]
    norm_num
  have h2l : (add_frame r1 f1).snapshot_frames_left = 1 := by
    rw [ha1l, h1l]
    norm_num
  obtain ⟨ha2s, ha2l, ha2t⟩ := add_frame_snapshot_facts (add_frame r1 f1) f2
  refine ⟨h1s, h1l, h1t, ?_, ?_⟩
  · rw [ha2s, h2l, h2s]
    norm_num
  · intro hle
    obtain ⟨hts2, -, htt2, -⟩ := trigger_snapshot_fields r1 alerts2 true now2 alloc2
    have hid : snapshotLogic { r1 with last_alert_types := alerts2 } true now2
        = { r1 with last_alert_types := alerts2 } := by
      apply snapshotLogic_cooldown_suppressed
      dsimp only
      rw [h1t, htc]
      omega
    constructor
    · rw [hts2, hid]
      exact h1s
    · rw [htt2, hid]
      exact h1t

/-- Witness for the C10 theorem: a fresh recorder (empty buffer, snapshot
time 0) triggered at time 10 with cooldown 3, burst frames 7 and 8, and a
suppressed re-trigger at time 12. -/
theorem trigger_empty_buffer_burst_witness :
    (VideoRecorder.mkInit cfg0).frame_buffer = [] ∧
    cfg0.snapshot_cooldown < 10 - (VideoRecorder.mkInit cfg0).last_snapshot_time ∧
    ((trigger_recording (VideoRecorder.mkInit cfg0) ["X"] true 10 .ok).1.snapshots
       = (VideoRecorder.mkInit cfg0).snapshots ∧
     (trigger_recording (VideoRecorder.mkInit cfg0) ["X"] true 10 .ok).1.snapshot_frames_left = 2 ∧
     (trigger_recording (VideoRecorder.mkInit cfg0) ["X"] true 10 .ok).1.last_snapshot_time = 10 ∧
     (add_frame (add_frame (trigger_recording (VideoRecorder.mkInit cfg0) ["X"] true 10 .ok).1 7) 8).snapshots
       = (VideoRecorder.mkInit cfg0).snapshots ++ [("seq", 7), ("seq", 8)] ∧
     ((12 : Int) - 10 ≤ (VideoRecorder.mkInit cfg0).cfg.snapshot_cooldown →
       (trigger_recording (trigger_recording (VideoRecorder.mkInit cfg0) ["X"] true 10 .ok).1 ["Y"] true 12 .ok).1.snapshots
         = (VideoRecorder.mkInit cfg0).snapshots ∧
       (trigger_recording (trigger_recording (VideoRecorder.mkInit cfg0) ["X"] true 10 .ok).1 ["Y"] true 12 .ok).1.last_snapshot_time
         = 10)) :=
  ⟨by decide, by decide,
    trigger_empty_buffer_burst (VideoRecorder.mkInit cfg0) ["X"] ["Y"] 10 12 7 8 .ok .ok
      (by decide) (by decide)⟩

/-! ## C6 -/

/-- Claim C6: when in one batch the event limiter and the heartbeat limiter
are both eligible for the same camera (an alert is present, the alert
cooldown has passed, and the heartbeat interval has passed), exactly one
record is emitted and it is the EVENT record; the last-heartbeat timer is
left unchanged (only the last-alert timer is reset to `now`), so at any
later batch time the heartbeat is still eligible. -/
theorem event_priority_over_heartbeat (camera : String) (t : PTime) (now : Int)
    (s : CamTimers) (dets : List Detection)
    (hgate : (frame_objects dets).any
      (fun o => decide (pyLower o.label = "person" ∨ pyLower o.label = "tv")) = true)
    (hev : site_alerts camera t (frame_objects dets) ≠ [])
    (hal : ALERT_COOLDOWN ≤ now - s.last_alert_time)
    (hhb : HEARTBEAT_INTERVAL ≤ now - s.last_heartbeat_time) :
    (process_frame camera t now s dets).2 =
      some (Payload.event (site_alerts camera t (frame_objects dets))
        ((frame_objects dets).filter (fun o => decide (pyLower o.label = "person"))).length
        (frame_objects dets)) ∧
    (process_frame camera t now s dets).1.last_heartbeat_time = s.last_heartbeat_time ∧
    (process_frame camera t now s dets).1.last_alert_time = now ∧
    (∀ now2 : Int, now ≤ now2 →
      HEARTBEAT_INTERVAL ≤ now2 - (process_frame camera t now s dets).1.last_heartbeat_time) := by
  have hne : frame_objects dets ≠ [] := by
    rcases List.any_eq_true.mp hgate with ⟨x, hx, -⟩
    exact List.ne_nil_of_mem hx
  unfold process_frame process_objs
  rw [if_pos ⟨hne, hgate⟩]
  dsimp only
  rw [if_pos (by simp [List.length_pos.mpr hev, hal])]
  refine ⟨rfl, rfl, rfl, ?_⟩
  intro now2 h2
  dsimp only
  omega

/-- Witness for the C6 theorem: one visible person on a Sunday noon at
RECEPTION_AREA, both limiters eligible (timers at 0, batch at second 100). -/
theorem event_priority_over_heartbeat_witness :
    (frame_objects [dP]).any
      (fun o => decide (pyLower o.label = "person" ∨ pyLower o.label = "tv")) = true ∧
    site_alerts "RECEPTION_AREA" ⟨6, 12, 0⟩ (frame_objects [dP]) ≠ [] ∧
    ALERT_COOLDOWN ≤ (100 : Int) - (⟨0, 0⟩ : CamTimers).last_alert_time ∧
    HEARTBEAT_INTERVAL ≤ (100 : Int) - (⟨0, 0⟩ : CamTimers).last_heartbeat_time ∧
    ((process_frame "RECEPTION_AREA" ⟨6, 12, 0⟩ 100 ⟨0, 0⟩ [dP]).2 =
      some (Payload.event (site_alerts "RECEPTION_AREA" ⟨6, 12, 0⟩ (frame_objects [dP]))
        ((frame_objects [dP]).filter (fun o => decide (pyLower o.label = "person"))).length
        (frame_objects [dP])) ∧
     (process_frame "RECEPTION_AREA" ⟨6, 12, 0⟩ 100 ⟨0, 0⟩ [dP]).1.last_heartbeat_time
       = (⟨0, 0⟩ : CamTimers).last_heartbeat_time ∧
     (process_frame "RECEPTION_AREA" ⟨6, 12, 0⟩ 100 ⟨0, 0⟩ [dP]).1.last_alert_time = 100 ∧
     (∀ now2 : Int, 100 ≤ now2 →
       HEARTBEAT_INTERVAL ≤ now2 - (process_frame "RECEPTION_AREA" ⟨6, 12, 0⟩ 100 ⟨0, 0⟩ [dP]).1.last_heartbeat_time)) :=
  ⟨by decide, by decide, by decide, by decide,
    event_priority_over_heartbeat "RECEPTION_AREA" ⟨6, 12, 0⟩ 100 ⟨0, 0⟩ [dP]
      (by decide) (by decide) (by decide) (by decide)⟩

/-! ## C9 -/

/-- Claim C9: a detection with negative confidence (e.g. −1) is discarded
before any further processing — it does not appear among the frame's
objects, and inserting it anywhere in the detection list changes neither the
frame's objects, nor the alert set (so no visual trigger tag and no effect on
`is_event`), nor the complete processing result (people count, emitted
record, timers). -/
theorem negative_confidence_no_effect (camera : String) (t : PTime) (now : Int)
    (s : CamTimers) (l1 l2 : List Detection) (d : Detection)
    (hneg : d.confidence < 0) :
    d ∉ frame_objects (l1 ++ d :: l2) ∧
    frame_objects (l1 ++ d :: l2) = frame_objects (l1 ++ l2) ∧
    site_alerts camera t (frame_objects (l1 ++ d :: l2))
      = site_alerts camera t (frame_objects (l1 ++ l2)) ∧
    process_frame camera t now s (l1 ++ d :: l2) = process_frame camera t now s (l1 ++ l2) := by
  have hd : decide (0 ≤ d.confidence) = false := by
    simp only [decide_eq_false_iff_not, not_le]
    exact hneg
  have heq : frame_objects (l1 ++ d :: l2) = frame_objects (l1 ++ l2) := by
    unfold frame_objects
    simp [List.filter_append, List.filter_cons, hd]
  refine ⟨?_, heq, by rw [heq], by unfold process_frame; rw [heq]⟩
  intro hmem
  have hpd := List.of_mem_filter hmem
  rw [hd] at hpd
  exact Bool.false_ne_true hpd

/-- Witness for the C9 theorem: the −1-confidence person detection `dNeg`
inserted before a normal person detection. -/
theorem negative_confidence_no_effect_witness :
    dNeg.confidence < 0 ∧
    (dNeg ∉ frame_objects ([] ++ dNeg :: [dP]) ∧
     frame_objects ([] ++ dNeg :: [dP]) = frame_objects ([] ++ [dP]) ∧
     site_alerts "RECEPTION_AREA" ⟨6, 12, 0⟩ (frame_objects ([] ++ dNeg :: [dP]))
       = site_alerts "RECEPTION_AREA" ⟨6, 12, 0⟩ (frame_objects ([] ++ [dP])) ∧
     process_frame "RECEPTION_AREA" ⟨6, 12, 0⟩ 100 ⟨0, 0⟩ ([] ++ dNeg :: [dP])
       = process_frame "RECEPTION_AREA" ⟨6, 12, 0⟩ 100 ⟨0, 0⟩ ([] ++ [dP])) :=
  ⟨by decide,
    negative_confidence_no_effect "RECEPTION_AREA" ⟨6, 12, 0⟩ 100 ⟨0, 0⟩ [] [dP] dNeg (by decide)⟩

/-! ## C5 -/

/-- One processed batch either emits a METRIC record — in which case the
heartbeat interval had elapsed since the last heartbeat and the heartbeat
timer is set to `now` — or it leaves the heartbeat timer unchanged. -/
lemma process_frame_hb_cases (camera : String) (t : PTime) (now : Int)
    (s : CamTimers) (dets : List Detection) :
    (∃ n ds, (process_frame camera t now s dets).2 = some (Payload.metric n ds) ∧
      (process_frame camera t now s dets).1.last_heartbeat_time = now ∧
      HEARTBEAT_INTERVAL ≤ now - s.last_heartbeat_time) ∨
    ((∀ n ds, (process_frame camera t now s dets).2 ≠ some (Payload.metric n ds)) ∧
      (process_frame camera t now s dets).1.last_heartbeat_time = s.last_heartbeat_time) := by
  unfold process_frame process_objs
  by_cases h1 : frame_objects dets ≠ [] ∧
      ((frame_objects dets).any fun o => decide (pyLower o.label = "person" ∨ pyLower o.label = "tv")) = true
  case neg =>
    rw [if_neg h1]
    exact Or.inr ⟨fun n ds => by simp, rfl⟩
  rw [if_pos h1]
  dsimp only
  by_cases h2 : (decide (0 < (site_alerts camera t (frame_objects dets)).length)
      && decide (ALERT_COOLDOWN ≤ now - s.last_alert_time)) = true
  · rw [if_pos h2]
    exact Or.inr ⟨fun n ds => by simp, rfl⟩
  · rw [if_neg h2]
    by_cases h3 : decide (HEARTBEAT_INTERVAL ≤ now - s.last_heartbeat_time) = true
    · rw [if_pos h3]
      exact Or.inl ⟨_, _, rfl, rfl, of_decide_eq_true h3⟩
    · rw [if_neg h3]
      exact Or.inr ⟨fun n ds => by simp, rfl⟩

/-- Claim C5 counterexample: an EVENT at second 100 suppresses a heartbeat
that was eligible (interval 60 elapsed since timer 0), and the very next
batch at second 101 emits a METRIC — only 1 second after the suppressing
event — because the event emission does not reset the heartbeat timer. -/
theorem heartbeat_after_suppressing_event_cex :
    (run_batches "RECEPTION_AREA" ⟨0, 0⟩ [batchSunday, batchTuesday]).2 =
      [(100, Payload.event ["RESTRICTED_ACCESS_SUNDAY"] 1 [dP]),
       (101, Payload.metric 1 [dP])] ∧
    HEARTBEAT_INTERVAL ≤ (100 : Int) - (0 : Int) ∧
    (101 : Int) - (100 : Int) < HEARTBEAT_INTERVAL := by
  refine ⟨by decide, by decide, by decide⟩

/-- Claim C5 (amended): for every per-camera sequence of processed batches, a
METRIC (heartbeat) record is never emitted less than
`heartbeat_interval_seconds` after that camera's previous heartbeat emission;
an EVENT that suppressed an eligible heartbeat does not reset the heartbeat
timer, so a heartbeat may fire any time after such an event. -/
theorem heartbeat_spacing (camera : String) (s : CamTimers) (bs : List Batch) :
    metricsSpacedB s.last_heartbeat_time (run_batches camera s bs).2 = true := by
  induction bs generalizing s with
  | nil => rfl
  | cons b bs ih =>
    unfold run_batches
    dsimp only
    rcases process_frame_hb_cases camera b.t b.now s b.dets with
      ⟨n, ds, hout, hhb, hint⟩ | ⟨hnm, hhb⟩
    · rw [hout]
      dsimp only
      rw [List.singleton_append]
      show (decide (HEARTBEAT_INTERVAL ≤ b.now - s.last_heartbeat_time)
        && metricsSpacedB b.now (run_batches camera (process_frame camera b.t b.now s b.dets).1 bs).2) = true
      rw [Bool.and_eq_true]
      refine ⟨decide_eq_true hint, ?_⟩
      have := ih (process_frame camera b.t b.now s b.dets).1
      rw [hhb] at this
      exact this
    · cases hout : (process_frame camera b.t b.now s b.dets).2 with
      | none =>
        dsimp only
        rw [List.nil_append]
        have := ih (process_frame camera b.t b.now s b.dets).1
        rw [hhb] at this
        exact this
      | some p =>
        cases p with
        | metric n ds => exact absurd hout (hnm n ds)
        | event tr n ds =>
          dsimp only
          rw [List.singleton_append]
          show metricsSpacedB s.last_heartbeat_time
            (run_batches camera (process_frame camera b.t b.now s b.dets).1 bs).2 = true
          have := ih (process_frame camera b.t b.now s b.dets).1
          rw [hhb] at this
          exact this

/-! ## C1 -/

@[simp] lemma addFrames_nil (r : VideoRecorder) : addFrames r [] = r := rfl

@[simp] lemma addFrames_cons (r : VideoRecorder) (f : Nat) (fs : List Nat) :
    addFrames r (f :: fs) = addFrames (add_frame r f) fs := rfl

/-- A mid-recording `add_frame` step: with an open writer holding `ws` and
more than one frame still to record, the frame is appended to the writer, the
counter decremented, and the recording continues. -/
lemma add_frame_writer_mid (r : VideoRecorder) (ws : List Nat) (f : Nat)
    (hrec : r.is_recording = true)
    (hw : r.active_writer = some { opened := true, frames := ws })
    (hrem : 1 < r.remaining_frames_to_record) :
    (add_frame r f).is_recording = true ∧
    (add_frame r f).active_writer = some { opened := true, frames := ws ++ [f] } ∧
    (add_frame r f).remaining_frames_to_record = r.remaining_frames_to_record - 1 ∧
    (add_frame r f).closed_outputs = r.closed_outputs ∧
    (add_frame r f).cfg = r.cfg := by
  unfold add_frame
  dsimp only
  rw [if_pos (by rw [bufferStep_is_recording]; exact hrec)]
  unfold recordStep
  dsimp only
  simp only [bufferStep_active_writer, bufferStep_remaining, hw]
  rw [if_neg (by omega)]
  simp [hrec]

/-- The final `add_frame` step of a recording: with an open writer holding
`ws` and exactly one frame still to record, the frame is appended, the
counter reaches zero, and the recording is stopped — the writer is released
and its contents become a closed output. -/
lemma add_frame_writer_last (r : VideoRecorder) (ws : List Nat) (f : Nat)
    (hrec : r.is_recording = true)
    (hw : r.active_writer = some { opened := true, frames := ws })
    (hrem : r.remaining_frames_to_record = 1) :
    (add_frame r f).is_recording = false ∧
    (add_frame r f).active_writer = none ∧
    (add_frame r f).closed_outputs = r.closed_outputs ++ [ws ++ [f]] ∧
    (add_frame r f).cfg = r.cfg := by
  unfold add_frame
  dsimp only
  rw [if_pos (by rw [bufferStep_is_recording]; exact hrec)]
  unfold recordStep
  dsimp only
  simp only [bufferStep_active_writer, bufferStep_remaining, hw, hrem]
  rw [if_pos (by omega)]
  unfold stopRecording
  simp

/-- Feeding exactly the remaining number of frames to an actively recording
state finishes the recording, whose closed output is the writer contents at
the start followed by those frames. -/
lemma record_run_total (fs : List Nat) : ∀ (r : VideoRecorder) (ws : List Nat),
    r.is_recording = true →
    r.active_writer = some { opened := true, frames := ws } →
    r.remaining_frames_to_record = (fs.length : Int) →
    fs ≠ [] →
    (addFrames r fs).is_recording = false ∧
    (addFrames r fs).closed_outputs = r.closed_outputs ++ [ws ++ fs] := by
  induction fs with
  | nil =>
    intro r ws _ _ _ hne
    exact absurd rfl hne
  | cons f fs ih =>
    intro r ws hrec hw hrem _
    rw [addFrames_cons]
    by_cases hfs : fs = []
    · subst hfs
      have hlast := add_frame_writer_last r ws f hrec hw (by simpa using hrem)
      refine ⟨?_, ?_⟩
      · rw [addFrames_nil]
        exact hlast.1
      · rw [addFrames_nil, hlast.2.2.1]
    · have hlen : (0 : Int) < fs.length := by
        have := List.length_pos.mpr hfs
        exact_mod_cast this
      have hmid := add_frame_writer_mid r ws f hrec hw (by
        rw [hrem]
        simp only [List.length_cons]
        push_cast
        omega)
      have hrem2 : (add_frame r f).remaining_frames_to_record = (fs.length : Int) := by
        rw [hmid.2.2.1, hrem]
        simp only [List.length_cons]
        push_cast
        omega
      have hrun := ih (add_frame r f) (ws ++ [f]) hmid.1 hmid.2.1 hrem2 hfs
      refine ⟨hrun.1, ?_⟩
      rw [hrun.2, hmid.2.2.2.1]
      simp

/-- Feeding strictly fewer frames than remain keeps the recording active,
with the writer contents extended by exactly those frames in order. -/
lemma record_run_mid (fs : List Nat) : ∀ (r : VideoRecorder) (ws : List Nat),
    r.is_recording = true →
    r.active_writer = some { opened := true, frames := ws } →
    (fs.length : Int) < r.remaining_frames_to_record →
    (addFrames r fs).is_recording = true ∧
    (addFrames r fs).active_writer = some { opened := true, frames := ws ++ fs } ∧
    (addFrames r fs).remaining_frames_to_record = r.remaining_frames_to_record - fs.length ∧
    (addFrames r fs).closed_outputs = r.closed_outputs := by
  induction fs with
  | nil =>
    intro r ws hrec hw _
    simp [hrec, hw]
  | cons f fs ih =>
    intro r ws hrec hw hlt
    rw [addFrames_cons]
    have h1 : 1 < r.remaining_frames_to_record := by
      simp only [List.length_cons] at hlt
      push_cast at hlt
      omega
    have hmid := add_frame_writer_mid r ws f hrec hw h1
    have hlt2 : (fs.length : Int) < (add_frame r f).remaining_frames_to_record := by
      rw [hmid.2.2.1]
      simp only [List.length_cons] at hlt
      push_cast at hlt ⊢
      omega
    have hrun := ih (add_frame r f) (ws ++ [f]) hmid.1 hmid.2.1 hlt2
    refine ⟨hrun.1, ?_, ?_, ?_⟩
    · rw [hrun.2.1]
      simp
    · rw [hrun.2.2.1, hmid.2.2.1]
      simp only [List.length_cons]
      push_cast
      omega
    · rw [hrun.2.2.2, hmid.2.2.2.1]

/-- The exact state produced by an Idle `trigger_recording` with successful
allocation: Active, full post-event budget, writer open and holding the ring
buffer contents in oldest-first order, nothing closed. -/
lemma trigger_idle_ok_state (r : VideoRecorder) (alerts : List String)
    (snap : Bool) (now : Int) (hidle : r.is_recording = false) :
    (trigger_recording r alerts snap now .ok).1.is_recording = true ∧
    (trigger_recording r alerts snap now .ok).1.active_writer
      = some { opened := true, frames := r.frame_buffer } ∧
    (trigger_recording r alerts snap now .ok).1.remaining_frames_to_record = r.cfg.post_frames ∧
    (trigger_recording r alerts snap now .ok).1.closed_outputs = r.closed_outputs ∧
    (trigger_recording r alerts snap now .ok).1.cfg = r.cfg := by
  unfold trigger_recording
  dsimp only
  rw [if_neg (by rw [snapshotLogic_is_recording]; exact (by rw [hidle]; exact Bool.false_ne_true))]
  dsimp only
  simp

/-- Claim C1: triggering an Idle recorder with successful writer allocation
transitions it to Active with the writer holding exactly the ring buffer
contents at trigger time (oldest-first); feeding the next
`post_event_seconds*fps` frames through `add_frame`, with no further trigger
in between, writes each of them after the buffered frames and then closes the
output, which contains exactly the trigger-time buffer followed by those
frames; after any strictly shorter prefix of those frames the recording is
still open, holding the buffer followed by exactly that prefix. -/
theorem trigger_idle_records_buffer_then_frames (r : VideoRecorder)
    (alerts : List String) (snap : Bool) (now : Int) (fs : List Nat)
    (hidle : r.is_recording = false)
    (hlen : fs.length = r.cfg.post_event_seconds * r.cfg.fps)
    (hpos : 0 < r.cfg.post_event_seconds * r.cfg.fps) :
    (trigger_recording r alerts snap now .ok).1.is_recording = true ∧
    (trigger_recording r alerts snap now .ok).1.active_writer
      = some { opened := true, frames := r.frame_buffer } ∧
    (addFrames (trigger_recording r alerts snap now .ok).1 fs).is_recording = false ∧
    (addFrames (trigger_recording r alerts snap now .ok).1 fs).closed_outputs
      = r.closed_outputs ++ [r.frame_buffer ++ fs] ∧
    (∀ n : Nat, n < fs.length →
      (addFrames (trigger_recording r alerts snap now .ok).1 (fs.take n)).is_recording = true ∧
      (addFrames (trigger_recording r alerts snap now .ok).1 (fs.take n)).active_writer
        = some { opened := true, frames := r.frame_buffer ++ fs.take n }) := by
  obtain ⟨h1, h2, h3, h4, h5⟩ := trigger_idle_ok_state r alerts snap now hidle
  have hrem : (trigger_recording r alerts snap now .ok).1.remaining_frames_to_record
      = (fs.length : Int) := by
    rw [h3, hlen]
    rfl
  have hne : fs ≠ [] := by
    apply List.length_pos.mp
    omega
  have htot := record_run_total fs (trigger_recording r alerts snap now .ok).1
    r.frame_buffer h1 h2 hrem hne
  refine ⟨h1, h2, htot.1, ?_, ?_⟩
  · rw [htot.2, h4]
  · intro n hn
    have hmid := record_run_mid (fs.take n) (trigger_recording r alerts snap now .ok).1
      r.frame_buffer h1 h2 (by
        rw [hrem]
        have : (fs.take n).length = n := by
          rw [List.length_take]
          omega
        rw [this]
        exact_mod_cast hn)
    exact ⟨hmid.1, hmid.2.1⟩

/-- Witness for the C1 theorem: the idle recorder `recIdle` (buffer `[7, 8]`,
`post_event_seconds*fps = 2`) triggered at time 10 and fed the frames 9, 10. -/
theorem trigger_idle_records_buffer_then_frames_witness :
    recIdle.is_recording = false ∧
    [9, 10].length = recIdle.cfg.post_event_seconds * recIdle.cfg.fps ∧
    0 < recIdle.cfg.post_event_seconds * recIdle.cfg.fps ∧
    ((trigger_recording recIdle ["X"] true 10 .ok).1.is_recording = true ∧
     (trigger_recording recIdle ["X"] true 10 .ok).1.active_writer
       = some { opened := true, frames := recIdle.frame_buffer } ∧
     (addFrames (trigger_recording recIdle ["X"] true 10 .ok).1 [9, 10]).is_recording = false ∧
     (addFrames (trigger_recording recIdle ["X"] true 10 .ok).1 [9, 10]).closed_outputs
       = recIdle.closed_outputs ++ [recIdle.frame_buffer ++ [9, 10]] ∧
     (∀ n : Nat, n < [9, 10].length →
       (addFrames (trigger_recording recIdle ["X"] true 10 .ok).1 ([9, 10].take n)).is_recording = true ∧
       (addFrames (trigger_recording recIdle ["X"] true 10 .ok).1 ([9, 10].take n)).active_writer
         = some { opened := true, frames := recIdle.frame_buffer ++ [9, 10].take n })) :=
  ⟨by decide, by decide, by decide,
    trigger_idle_records_buffer_then_frames recIdle ["X"] true 10 [9, 10]
      (by decide) (by decide) (by decide)⟩

/-! ## C2 -/

/-- The backward bracket scan finds nothing when the file contains no `]`. -/
lemma findLastRB_of_not_mem (file : List Char) (h : ']' ∉ file) :
    findLastRB file = none := by
  induction file with
  | nil => rfl
  | cons c cs ih =>
    have h1 : ']' ∉ cs := fun hm => h (List.mem_cons_of_mem c hm)
    have h2 : ¬ c = ']' := fun hc => h (by rw [hc]; exact List.mem_cons_self _ _)
    simp [findLastRB, ih h1, h2]

/-- When the file ends with `]`, the backward bracket scan finds exactly that
final position. -/
lemma findLastRB_concat (pre : List Char) :
    findLastRB (pre ++ [']']) = some pre.length := by
  induction pre with
  | nil => rfl
  | cons c cs ih => simp [findLastRB, ih]

/-- The emptiness scan at the terminator position reads the reversed prefix. -/
lemma isArrayEmptyAt_concat (pre : List Char) :
    isArrayEmptyAt (pre ++ [']']) pre.length = emptyScanRev pre.reverse := by
  unfold isArrayEmptyAt
  rw [List.take_left]

/-- Overwriting from the terminator position of a terminator-ended file with a
nonempty string keeps the prefix and appends the written string. -/
lemma writeAt_concat (pre w : List Char) (hw : 1 ≤ w.length) :
    writeAt (pre ++ [']']) pre.length w = pre ++ w := by
  unfold writeAt
  rw [List.take_left, List.drop_eq_nil_of_le]
  · simp
  · simp only [List.length_append, List.length_singleton]
    omega

/-- The splice equation of `write_json_log` on a terminator-ended file: the
prefix is kept byte-for-byte and the record is spliced in, with a leading
comma exactly when the emptiness scan fails. -/
theorem write_json_log_append (pre rec : List Char) :
    write_json_log (pre ++ [']']) rec =
      pre ++ (if emptyScanRev pre.reverse then '\n' :: rec ++ ['\n', ']']
              else ',' :: '\n' :: rec ++ ['\n', ']']) := by
  unfold write_json_log
  rw [findLastRB_concat]
  dsimp only
  rw [isArrayEmptyAt_concat]
  by_cases h : emptyScanRev pre.reverse = true
  · rw [if_pos h]
    exact writeAt_concat pre _ (by simp)
  · rw [if_neg h]
    exact writeAt_concat pre _ (by simp)

/-- The fallback branch: with no `]` anywhere in the file, `write_json_log`
truncates and resets the file to a single-element array. -/
theorem write_json_log_reset (file rec : List Char) (h : ']' ∉ file) :
    write_json_log file rec = '[' :: '\n' :: rec ++ ['\n', ']'] := by
  unfold write_json_log
  rw [findLastRB_of_not_mem file h]

/-- The emptiness scan over an append is decided by the first part when it
contains a non-whitespace character. -/
lemma emptyScanRev_append (a b : List Char) :
    emptyScanRev (a ++ b) =
      match a.dropWhile Char.isWhitespace with
      | [] => emptyScanRev b
      | c :: _ => decide (c = '[') := by
  induction a with
  | nil => rfl
  | cons c cs ih =>
    rw [List.cons_append]
    show (if c.isWhitespace then emptyScanRev (cs ++ b) else decide (c = '[')) = _
    rw [List.dropWhile_cons]
    by_cases hc : c.isWhitespace = true
    · rw [if_pos hc, if_pos hc]
      exact ih
    · rw [if_neg hc, if_neg hc]

/-- The emptiness scan skips a leading whitespace character. -/
lemma emptyScanRev_cons_ws (c : Char) (l : List Char) (hc : c.isWhitespace = true) :
    emptyScanRev (c :: l) = emptyScanRev l := by
  show (if c.isWhitespace then emptyScanRev l else decide (c = '[')) = emptyScanRev l
  rw [if_pos hc]

/-- A reversed good record at the head of the scan always answers "not
empty". -/
lemma emptyScanRev_good_head (last rest : List Char) (h : GoodRecord last) :
    emptyScanRev (last.reverse ++ rest) = false := by
  rw [emptyScanRev_append]
  unfold GoodRecord at h
  cases hd : last.reverse.dropWhile Char.isWhitespace with
  | nil =>
    rw [hd] at h
    exact h.elim
  | cons c cs =>
    rw [hd] at h
    simp [h]

/-- The element region of a rendered nonempty array ends with one of the
records. -/
lemma middle_ends_with_record (r1 : List Char) (rs : List (List Char)) :
    ∃ p last, r1 ++ rs.flatMap (fun x => '\n' :: ',' :: '\n' :: x) = p ++ last ∧
      (last = r1 ∨ last ∈ rs) := by
  rcases List.eq_nil_or_concat rs with hnil | ⟨rs0, rl, hrs⟩
  · subst hnil
    exact ⟨[], r1, by simp, Or.inl rfl⟩
  · subst hrs
    refine ⟨r1 ++ rs0.flatMap (fun x => '\n' :: ',' :: '\n' :: x) ++ ['\n', ',', '\n'], rl,
      ?_, Or.inr (by simp)⟩
    simp

/-- One `write_json_log` call on a rendered array of good records appends the
new record to the rendering. -/
lemma write_render_snoc (rs : List (List Char)) (r : List Char)
    (hrs : ∀ x ∈ rs, GoodRecord x) :
    write_json_log (render rs) r = render (rs ++ [r]) := by
  cases rs with
  | nil =>
    show write_json_log (['['] ++ [']']) r = _
    rw [write_json_log_append]
    rw [if_pos (by decide)]
    simp [render]
  | cons r1 rs1 =>
    obtain ⟨p, last, hm, hl⟩ := middle_ends_with_record r1 rs1
    have hgood : GoodRecord last := by
      rcases hl with h | h
      · rw [h]
        exact hrs r1 (List.mem_cons_self _ _)
      · exact hrs last (List.mem_cons_of_mem _ h)
    show write_json_log
      ('[' :: '\n' :: (r1 ++ rs1.flatMap (fun x => '\n' :: ',' :: '\n' :: x)) ++ ['\n', ']']) r = _
    rw [show '[' :: '\n' :: (r1 ++ rs1.flatMap (fun x => '\n' :: ',' :: '\n' :: x)) ++ ['\n', ']']
        = ('[' :: '\n' :: (r1 ++ rs1.flatMap (fun x => '\n' :: ',' :: '\n' :: x)) ++ ['\n']) ++ [']']
      from by simp]
    rw [write_json_log_append]
    have hrev : ('[' :: '\n' :: (r1 ++ rs1.flatMap (fun x => '\n' :: ',' :: '\n' :: x)) ++ ['\n']).reverse
        = '\n' :: (last.reverse ++ (p.reverse ++ ['\n', '['])) := by
      rw [hm]
      simp
    rw [hrev]
    rw [emptyScanRev_cons_ws '\n' _ (by decide)]
    rw [emptyScanRev_good_head last _ hgood]
    rw [if_neg (by simp)]
    show _ = '[' :: '\n' :: (r1 ++ ((rs1 ++ [r]).flatMap (fun x => '\n' :: ',' :: '\n' :: x))) ++ ['\n', ']']
    simp

/-- Iterating `write_json_log` over good records, starting from any rendered
state, renders the concatenated record list. -/
lemma applyWrites_render (recs : List (List Char)) : ∀ done : List (List Char),
    (∀ x ∈ done, GoodRecord x) → (∀ x ∈ recs, GoodRecord x) →
    applyWrites (render done) recs = render (done ++ recs) := by
  induction recs with
  | nil =>
    intro done _ _
    simp [applyWrites]
  | cons r rs ih =>
    intro done hdone hrecs
    show applyWrites (write_json_log (render done) r) rs = _
    rw [write_render_snoc done r hdone]
    rw [ih (done ++ [r])
      (by
        intro x hx
        rcases List.mem_append.mp hx with h | h
        · exact hdone x h
        · rw [List.mem_singleton.mp h]
          exact hrecs r (List.mem_cons_self _ _))
      (fun x hx => hrecs x (List.mem_cons_of_mem _ hx))]
    simp

/-- Every rendered array ends with the `]` terminator. -/
lemma render_ends_with_bracket (recs : List (List Char)) :
    (render recs).getLast? = some ']' := by
  cases recs with
  | nil => rfl
  | cons r rs =>
    show ('[' :: '\n' :: (r ++ rs.flatMap (fun x => '\n' :: ',' :: '\n' :: x)) ++ ['\n', ']']).getLast?
      = some ']'
    rw [show '[' :: '\n' :: (r ++ rs.flatMap (fun x => '\n' :: ',' :: '\n' :: x)) ++ ['\n', ']']
        = ('[' :: '\n' :: (r ++ rs.flatMap (fun x => '\n' :: ',' :: '\n' :: x)) ++ ['\n']) ++ [']']
      from by simp]
    rw [List.getLast?_concat]

/-- Claim C2: a completed `write_json_log` call (1) on a file with no closing
bracket (corrupt or empty) resets it to a single-element array holding the
new record; (2) on a terminator-ended file splices the record in before the
final `]` without rewriting prior bytes, with a leading comma exactly when
the backward scan finds a non-whitespace character other than `[` (i.e. the
array is non-empty); and (3) starting from the initial file `[]`, any
sequence of appended records (each a serialized JSON value: nonempty, last
non-whitespace character not `[`) leaves the file the syntactically valid
JSON array rendering of exactly those records, which (4) always ends in the
closing bracket. -/
theorem write_json_log_spec :
    (∀ file rec : List Char, ']' ∉ file →
      write_json_log file rec = '[' :: '\n' :: rec ++ ['\n', ']']) ∧
    (∀ pre rec : List Char,
      write_json_log (pre ++ [']']) rec =
        pre ++ (if emptyScanRev pre.reverse then '\n' :: rec ++ ['\n', ']']
                else ',' :: '\n' :: rec ++ ['\n', ']'])) ∧
    (∀ recs : List (List Char), (∀ x ∈ recs, GoodRecord x) →
      applyWrites ['[', ']'] recs = render recs) ∧
    (∀ recs : List (List Char), (render recs).getLast? = some ']') :=
  ⟨write_json_log_reset, write_json_log_append,
    fun recs h => by
      have hr := applyWrites_render recs [] (by intro x hx; cases hx) h
      simpa [render] using hr,
    render_ends_with_bracket⟩

/-- Witness for the C2 theorem: the file `x` (no bracket) reset with record
`1`; the empty array `[]` spliced with `1`; the two-record run `1`, `2` from
the initial file; and the terminator of that rendering. -/
theorem write_json_log_spec_witness :
    (']' ∉ ['x'] ∧ write_json_log ['x'] ['1'] = '[' :: '\n' :: ['1'] ++ ['\n', ']']) ∧
    (write_json_log (['['] ++ [']']) ['1'] =
      ['['] ++ (if emptyScanRev (['['] : List Char).reverse then '\n' :: ['1'] ++ ['\n', ']']
                else ',' :: '\n' :: ['1'] ++ ['\n', ']'])) ∧
    ((∀ x ∈ [['1'], ['2']], GoodRecord x) ∧
      applyWrites ['[', ']'] [['1'], ['2']] = render [['1'], ['2']]) ∧
    (render [['1'], ['2']]).getLast? = some ']' :=
  ⟨⟨by decide, write_json_log_spec.1 ['x'] ['1'] (by decide)⟩,
    write_json_log_spec.2.1 ['['] ['1'],
    ⟨by decide, write_json_log_spec.2.2.1 [['1'], ['2']] (by decide)⟩,
    write_json_log_spec.2.2.2 [['1'], ['2']]⟩

end VideoAnalyzer
